import Mathlib

/-!
Shallow embedding of the TaskPro backend (Node/Express + Mongoose) board
aggregate, invitation workflow and session store, together with proofs of the
behavioural claims about it.

Conventions of the embedding:
* Mongo ObjectIds are modelled as `Nat`.
* A Mongo collection is an association list `Store α = List (Id × α)` from
  document id to document. `Model.findById` returns the first binding,
  `Model.findByIdAndDelete` removes all bindings of that id (ids are unique in
  a real collection), and a `save` of a fetched-and-mutated document is
  `updateById`.
* HTTP responses are modelled as a status code (`Nat`) plus, where the route
  sends a JSON body that matters to a claim, the body. `res.json(x)` with no
  explicit status is status 200.
* Mongoose `timestamps: true` bookkeeping fields (`createdAt`/`updatedAt`) are
  wall-clock metadata and are not part of the model.
* Joi validation of request bodies is modelled by well-typed payload
  structures plus explicit boolean validators for the conditions Joi actually
  checks on them (required strings are non-empty, enum membership, length
  bounds); the 24-hex-digit ObjectId regex is satisfied by construction since
  ids are already `Id`s.
-/

namespace TaskPro

/-- Mongo ObjectId, modelled as a natural number. -/
abbrev Id := Nat

/-- Closed priority enumeration of a card: `["without", "low", "medium", "high"]`
(cardModel.js `PRIORITY_CARD`), in its documented order. -/
inductive Priority
  | without
  | low
  | medium
  | high
deriving Repr, DecidableEq

/-- The documented order without < low < medium < high, as a rank. -/
def Priority.rank : Priority → Nat
  | .without => 0
  | .low => 1
  | .medium => 2
  | .high => 3

/-- Card collaborator snapshot `{userId, name, avatarURL}` (cardModel.js). -/
structure CardCollab where
  userId : Id
  name : String
  avatarURL : String
deriving Repr, DecidableEq

/-- Card document (cardModel.js `cardSchema`). `description` and `deadline`
are optional; `priority` defaults to `without` at creation. -/
structure Card where
  titleCard : String
  description : Option String
  priority : Priority
  priorityColor : String
  deadline : Option Nat
  columnId : Id
  owner : Id
  boardId : Id
  collaborators : List CardCollab
deriving Repr, DecidableEq

/-- Column document (columnModel.js `columnSchema`); `boardId` is the
back-reference to the parent board, `owner` the denormalized owner field. -/
structure Column where
  titleColumn : String
  boardId : Id
  owner : Id
deriving Repr, DecidableEq

/-- Board document (boardModel.js `boardSchema`): owner, required title,
optional background/icon from closed enumerations, collaborator id list. -/
structure Board where
  owner : Id
  titleBoard : String
  background : Option String
  icon : Option String
  collaborators : List Id
deriving Repr, DecidableEq

/-- Invitation status enumeration (InvitationModel.js), default `pending`. -/
inductive InvStatus
  | pending
  | accepted
  | declined
deriving Repr, DecidableEq

/-- Invitation document (InvitationModel.js). -/
structure Invitation where
  boardId : Id
  userId : Id
  status : InvStatus
deriving Repr, DecidableEq

/-- A Mongo collection: association list from document id to document. -/
abbrev Store (α : Type) := List (Id × α)

/-- `Model.findById(i)`: the first binding of id `i`, if any. -/
def findById {α : Type} (s : Store α) (i : Id) : Option α :=
  (s.find? (fun p => p.1 == i)).map Prod.snd

/-- `doc.save()` of a fetched document: replace the binding of id `i`. -/
def updateById {α : Type} (s : Store α) (i : Id) (a : α) : Store α :=
  s.map (fun p => if p.1 == i then (p.1, a) else p)

/-- `Model.findByIdAndDelete(i)`: remove the binding of id `i`. -/
def findByIdAndDelete {α : Type} (s : Store α) (i : Id) : Store α :=
  s.filter (fun p => p.1 != i)

/-- `Model.findByIdAndUpdate(i, patch, {new: true})`: apply `f` to the stored
document and return the updated document, or `none` when the id resolves to
no document (the route then sends that `null` as its JSON body). -/
def findByIdAndUpdate {α : Type} (s : Store α) (i : Id) (f : α → α) :
    Store α × Option α :=
  match findById s i with
  | none => (s, none)
  | some a => (updateById s i (f a), some (f a))

/-- The persistent state behind the board/column/card/invitation routers.
`nextId` models Mongo's fresh ObjectId generation at `save()`. -/
structure DB where
  boards : Store Board
  columns : Store Column
  cards : Store Card
  invitations : Store Invitation
  nextId : Id
deriving Repr, DecidableEq

/-- Closed background enumeration (boardModel.js `BACKGROUND_NAMES`). -/
def BACKGROUND_NAMES : List String :=
  ["block", "abstractSpheres", "balloonFestival", "cherryBlossomTree",
   "cloudySky", "crescentMoon", "desertArch", "hotAirBalloon", "milkyWayCamp",
   "moonEclipse", "palmLeaves", "pinkFlowers", "rockyCoast", "sailboat",
   "turquoiseBay", "starryMountains"]

/-- Closed icon enumeration (boardModel.js `ICON_NAMES`). -/
def ICON_NAMES : List String :=
  ["loadingIcon", "colorsIcon", "containerIcon", "hexagonIcon",
   "lightningIcon", "projectIcon", "puzzlePieceIcon", "starIcon"]

/-- Body of `PUT /boards/:boardId` (all fields optional per
`updateBoardSchema`). -/
structure BoardPatch where
  titleBoard : Option String
  background : Option String
  icon : Option String
  collaborators : Option (List Id)
deriving Repr, DecidableEq

/-- Joi `updateBoardSchema`: present strings non-empty, background/icon in
their closed enumerations. -/
def validateBoardPatch (p : BoardPatch) : Bool :=
  (match p.titleBoard with | none => true | some t => t ≠ "") &&
  (match p.background with | none => true | some b => BACKGROUND_NAMES.contains b) &&
  (match p.icon with | none => true | some i => ICON_NAMES.contains i)

/-- GET /boards (boardsRouter.js `getUserBoards`): the boards whose `owner`
field equals the authenticated user's id. -/
def getUserBoards (db : DB) (userId : Id) : List (Id × Board) :=
  db.boards.filter (fun p => p.2.owner == userId)

/-- One entry of the `columns` array a `GET /boards/:boardId` response:
the column document spread together with its (possibly filtered) cards. -/
structure ColumnWithCards where
  columnId : Id
  column : Column
  cards : List (Id × Card)
deriving Repr, DecidableEq

/-- The `GET /boards/:boardId` response body: the board document spread
together with the per-column card lists. -/
structure BoardData where
  board : Board
  columns : List ColumnWithCards
deriving Repr, DecidableEq

/-- The card filter built in `getBoardData`: `{ columnId: column._id }`,
plus `priority: priority` exactly when a priority was supplied in the query. -/
def cardFilterMatches (filterPriority : Option Priority) (columnId : Id)
    (c : Card) : Bool :=
  c.columnId == columnId &&
  (match filterPriority with
   | none => true
   | some p => c.priority == p)

/-- GET /boards/:boardId (boardsRouter.js `getBoardData`): 404 when the board
does not resolve; otherwise the board with, for every column whose `boardId`
equals the requested id, the cards matching the built filter. -/
def getBoardData (db : DB) (boardId : Id) (filterPriority : Option Priority) :
    Except Nat BoardData :=
  match findById db.boards boardId with
  | none => .error 404
  | some board =>
    let columns := db.columns.filter (fun p => p.2.boardId == boardId)
    .ok
      { board := board
        columns := columns.map (fun p =>
          { columnId := p.1
            column := p.2
            cards := db.cards.filter
              (fun q => cardFilterMatches filterPriority p.1 q.2) }) }

/-- PUT /boards/:boardId (boardsRouter.js `updateBoard`): Joi-validate, then
`findByIdAndUpdate` with the four body fields (absent fields are `undefined`
and are stripped from the Mongo update), answering 200 with the updated
document — which is `null` when the id resolves to no board. -/
def updateBoard (db : DB) (boardId : Id) (p : BoardPatch) :
    DB × Nat × Option Board :=
  if !validateBoardPatch p then (db, 400, none)
  else
    let (boards2, updated) := findByIdAndUpdate db.boards boardId
      (fun b =>
        { b with
          titleBoard := p.titleBoard.getD b.titleBoard
          background := match p.background with
            | none => b.background
            | some v => some v
          icon := match p.icon with
            | none => b.icon
            | some v => some v
          collaborators := p.collaborators.getD b.collaborators })
    ({ db with boards := boards2 }, 200, updated)

/-- DELETE /boards/:boardId (boardsRouter.js `deleteBoard`):
`Board.findByIdAndDelete(boardId)` and nothing else, then 200. -/
def deleteBoard (db : DB) (boardId : Id) : DB × Nat :=
  ({ db with boards := findByIdAndDelete db.boards boardId }, 200)

/-- Body of `POST .../columns` after Joi (`schemaAddColumn`): a title of 1..150
characters (`boardId` comes from the route params in this router). -/
def validateAddColumn (titleColumn : String) : Bool :=
  1 ≤ titleColumn.length && titleColumn.length ≤ 150

/-- POST /boards/:boardId/columns (columnsRouter `addColumn`): validate, 404
when the parent board does not resolve, else store a new column whose `owner`
is the authenticated requester's id (`req.user.id`). -/
def addColumn (db : DB) (userId : Id) (boardId : Id) (titleColumn : String) :
    DB × Nat × Option (Id × Column) :=
  if !validateAddColumn titleColumn then (db, 400, none)
  else
    match findById db.boards boardId with
    | none => (db, 404, none)
    | some _ =>
      let nc : Column := { titleColumn := titleColumn, boardId := boardId,
                           owner := userId }
      ({ db with columns := db.columns ++ [(db.nextId, nc)],
                 nextId := db.nextId + 1 },
       201, some (db.nextId, nc))

/-- PUT .../columns/:columnId (columnsRouter `updateColumn`): validate
(`schemaUpdateColumn`, optional 1..150 title), then `findByIdAndUpdate` on the
title, answering 200 with the updated document (`null` when absent). -/
def updateColumn (db : DB) (columnId : Id) (titleColumn : Option String) :
    DB × Nat × Option Column :=
  if !(match titleColumn with
       | none => true
       | some t => 1 ≤ t.length && t.length ≤ 150) then (db, 400, none)
  else
    let (cols2, updated) := findByIdAndUpdate db.columns columnId
      (fun c => { c with titleColumn := titleColumn.getD c.titleColumn })
    ({ db with columns := cols2 }, 200, updated)

/-- DELETE .../columns/:columnId (columnsRouter `deleteColumn`):
`Column.findByIdAndDelete(columnId)` and nothing else, then 200. -/
def deleteColumn (db : DB) (columnId : Id) : DB × Nat :=
  ({ db with columns := findByIdAndDelete db.columns columnId }, 200)

/-- Body of `POST .../cards` (cardsRouter `addCard`). The router destructures
`collaborator` (singular), which is not a field of the current card schema, so
it never reaches the stored document; the schema default gives the new card an
empty collaborator list. -/
structure CardAddPayload where
  titleCard : String
  description : Option String
  priority : Option Priority
  priorityColor : String
  deadline : Option Nat
deriving Repr, DecidableEq

/-- Joi `cardAddSchema` on the modelled fields: required strings non-empty. -/
def validateCardAdd (p : CardAddPayload) : Bool :=
  p.titleCard ≠ "" && p.priorityColor ≠ ""

/-- POST .../columns/:columnId/cards (cardsRouter `addCard`): validate, 404
when the column does not resolve, else store a new card with
`columnId` from the route, `owner := req.user.id` (the requester) and
`boardId := column.boardId`; `priority` defaults to `without`. -/
def addCard (db : DB) (userId : Id) (columnId : Id) (p : CardAddPayload) :
    DB × Nat × Option (Id × Card) :=
  if !validateCardAdd p then (db, 400, none)
  else
    match findById db.columns columnId with
    | none => (db, 404, none)
    | some column =>
      let nc : Card :=
        { titleCard := p.titleCard
          description := p.description
          priority := p.priority.getD .without
          priorityColor := p.priorityColor
          deadline := p.deadline
          columnId := columnId
          owner := userId
          boardId := column.boardId
          collaborators := [] }
      ({ db with cards := db.cards ++ [(db.nextId, nc)],
                 nextId := db.nextId + 1 },
       201, some (db.nextId, nc))

/-- Body of `PUT .../cards/:cardId` (cardsRouter `updateCard`,
`cardUpdateSchema`): title, color and columnId required, the rest optional. -/
structure CardUpdatePayload where
  titleCard : String
  description : Option String
  priority : Option Priority
  priorityColor : String
  deadline : Option Nat
  columnId : Id
  collaborators : Option (List CardCollab)
deriving Repr, DecidableEq

/-- Joi `cardUpdateSchema` on the modelled fields. -/
def validateCardUpdate (p : CardUpdatePayload) : Bool :=
  p.titleCard ≠ "" && p.priorityColor ≠ ""

/-- PUT .../cards/:cardId (cardsRouter `updateCard`): validate, then
`findByIdAndUpdate(cardId, req.body, {new: true})`, answering 200 with the
updated document (`null` when the id resolves to no card). -/
def updateCard (db : DB) (cardId : Id) (p : CardUpdatePayload) :
    DB × Nat × Option Card :=
  if !validateCardUpdate p then (db, 400, none)
  else
    let (cards2, updated) := findByIdAndUpdate db.cards cardId
      (fun c =>
        { c with
          titleCard := p.titleCard
          description := match p.description with
            | none => c.description
            | some d => some d
          priority := p.priority.getD c.priority
          priorityColor := p.priorityColor
          deadline := match p.deadline with
            | none => c.deadline
            | some d => some d
          columnId := p.columnId
          collaborators := p.collaborators.getD c.collaborators })
    ({ db with cards := cards2 }, 200, updated)

/-- PATCH .../cards/:cardId/move (cardsRouter `moveCard`): Joi only checks the
body's `columnId` is a syntactically well-formed ObjectId (true by
construction here), then `findByIdAndUpdate(cardId, { columnId })` — no lookup
of the destination column at all — answering 200 with the updated document
(`null` when the card id resolves to nothing). -/
def moveCard (db : DB) (cardId : Id) (destColumnId : Id) :
    DB × Nat × Option Card :=
  let (cards2, updated) := findByIdAndUpdate db.cards cardId
    (fun c => { c with columnId := destColumnId })
  ({ db with cards := cards2 }, 200, updated)

/-- DELETE .../cards/:cardId (cardsRouter `deleteCard`):
`findOneAndDelete({_id: cardId, columnId})`, 404 when no card matches both. -/
def deleteCard (db : DB) (columnId : Id) (cardId : Id) : DB × Nat :=
  match findById db.cards cardId with
  | none => (db, 404)
  | some c =>
    if c.columnId == columnId then
      ({ db with cards := findByIdAndDelete db.cards cardId }, 200)
    else (db, 404)

/-- POST /invitations (invitationController `createInvitation`): always saves
a fresh invitation with the schema default status `pending`, answering 201. -/
def createInvitation (db : DB) (boardId : Id) (userId : Id) :
    DB × Nat × Option (Id × Invitation) :=
  let inv : Invitation := { boardId := boardId, userId := userId,
                            status := .pending }
  ({ db with invitations := db.invitations ++ [(db.nextId, inv)],
             nextId := db.nextId + 1 },
   201, some (db.nextId, inv))

/-- POST /invitations/accept/:invitationId (invitationController
`acceptInvitation`): 404 when the invitation does not resolve; otherwise the
status is unconditionally set to `accepted` and saved, then the board is
fetched — a `null` board makes `board.collaborators` throw, caught as 500,
with the invitation already saved — and the invitee is pushed onto the
board's collaborator array only if `includes` does not already find it. -/
def acceptInvitation (db : DB) (invitationId : Id) : DB × Nat :=
  match findById db.invitations invitationId with
  | none => (db, 404)
  | some inv =>
    let inv2 := { inv with status := InvStatus.accepted }
    let db1 := { db with invitations := updateById db.invitations invitationId inv2 }
    match findById db1.boards inv2.boardId with
    | none => (db1, 500)
    | some board =>
      if board.collaborators.contains inv2.userId then (db1, 200)
      else
        let b2 := { board with collaborators := board.collaborators ++ [inv2.userId] }
        ({ db1 with boards := updateById db1.boards inv2.boardId b2 }, 200)

/-- POST /invitations/decline/:invitationId (invitationController
`declineInvitation`): 404 when the invitation does not resolve; otherwise —
with no check of the current status — the status is set to `declined` and
saved, and, when the board resolves, the invitee is filtered out of the
board's collaborator array; answers 200. -/
def declineInvitation (db : DB) (invitationId : Id) : DB × Nat :=
  match findById db.invitations invitationId with
  | none => (db, 404)
  | some inv =>
    let inv2 := { inv with status := InvStatus.declined }
    let db1 := { db with invitations := updateById db.invitations invitationId inv2 }
    match findById db1.boards inv2.boardId with
    | none => (db1, 200)
    | some board =>
      let b2 := { board with collaborators :=
                    board.collaborators.filter (fun c => !(c == inv2.userId)) }
      ({ db1 with boards := updateById db1.boards inv2.boardId b2 }, 200)

/-- User document (userModel.js), restricted to the fields the auth flows
read or write. -/
structure User where
  name : String
  email : String
  password : String
  theme : String
  avatarURL : String
deriving Repr, DecidableEq

/-- A signed JWT as the server sees it after `jwt.verify`: the payload fields
`id` and `sid` (either may be absent from the payload — `jwt.sign` drops
`undefined` values), the `expiresIn` horizon in hours, and whether
signature/expiry verification succeeds (`jwt.verify` throws otherwise). -/
structure Token where
  payloadId : Option Id
  payloadSid : Option Id
  expiresInHours : Nat
  wellSigned : Bool
deriving Repr, DecidableEq

/-- State behind the auth router and middleware: the user collection, the
session collection (`uid` field per session), and fresh-ObjectId counter. -/
structure AuthDB where
  users : Store User
  sessions : Store Id
  nextId : Id
deriving Repr, DecidableEq

/-- Option-valued id lookup: `Model.findById(x)` where `x` may be `undefined`
(mongoose turns `findById(undefined)` into `findOne({_id: null})`, which
matches nothing). -/
def findByOptId {α : Type} (s : Store α) (i : Option Id) : Option α :=
  match i with
  | none => none
  | some v => findById s v

/-- auth.js `authMiddleware`: 401 unless `jwt.verify` succeeds, the payload
`id` resolves to a live user and the payload `sid` resolves to a live
session; on success the resolved user and session are attached. -/
def authCheck (db : AuthDB) (t : Token) : Except Nat (User × Id) :=
  if !t.wellSigned then .error 401
  else
    match findByOptId db.users t.payloadId with
    | none => .error 401
    | some user =>
      match findByOptId db.sessions t.payloadSid with
      | none => .error 401
      | some sessionUid => .ok (user, sessionUid)

/-- Session/token issuance tail of `signIn` (authRouter lines 92-102), entered
after the bcrypt credential check (out of scope, an external black box)
succeeded for the user `uid`: `Session.create({uid})`, then
`jwt.sign({id, sid}, SECRET_KEY)` with `expiresIn` "20h" for the access token
and "7d" (168 h) for the refresh token. -/
def signInIssue (db : AuthDB) (uid : Id) : AuthDB × Token × Token :=
  let sid := db.nextId
  let db2 := { db with sessions := db.sessions ++ [(sid, uid)],
                       nextId := db.nextId + 1 }
  (db2,
   { payloadId := some uid, payloadSid := some sid, expiresInHours := 20,
     wellSigned := true },
   { payloadId := some uid, payloadSid := some sid, expiresInHours := 168,
     wellSigned := true })

/-- POST /auth/refresh-token (authRouter `refreshToken`): 403 unless
`jwt.verify` succeeds and both `id` and `sid` resolve; otherwise a fresh
token pair bound to the same session (both signed with "20h" in the source). -/
def refreshTokens (db : AuthDB) (t : Token) : Except Nat (Token × Token) :=
  if !t.wellSigned then .error 403
  else
    match findByOptId db.users t.payloadId with
    | none => .error 403
    | some _ =>
      match findByOptId db.sessions t.payloadSid with
      | none => .error 403
      | some _ =>
        .ok
          ({ payloadId := t.payloadId, payloadSid := t.payloadSid,
             expiresInHours := 20, wellSigned := true },
           { payloadId := t.payloadId, payloadSid := t.payloadSid,
             expiresInHours := 20, wellSigned := true })

/-- POST /auth/logout (authRouter `logOut`): 403 unless `jwt.verify` succeeds
on the refresh token and its `sid` resolves to a live session; otherwise
`Session.findByIdAndDelete(sid)`, answering 200. -/
def logOut (db : AuthDB) (t : Token) : AuthDB × Nat :=
  if !t.wellSigned then (db, 403)
  else
    match t.payloadSid with
    | none => (db, 403)
    | some sid =>
      match findById db.sessions sid with
      | none => (db, 403)
      | some _ =>
        ({ db with sessions := findByIdAndDelete db.sessions sid }, 200)

/-- User lookup by email: `User.findOne({email})`. -/
def findUserByEmail (db : AuthDB) (email : String) : Option (Id × User) :=
  db.users.find? (fun p => p.2.email == email)

/-- GET /auth/google-redirect (authRouter `googleRedirect`), entered with the
verified `{email, name, picture}` obtained from the provider (the code/token
exchange is an external black box): find-or-create the user by email (a new
user gets a random bcrypt-hashed placeholder password, modelled as an
arbitrary supplied string, never compared in scope), `Session.create({uid})`,
then sign the token pair from `{ id: user._id, sid: newSession.__id }`.
`__id` is not a property of the session document (the id field is `_id`), so
the signed `sid` is `undefined` and is dropped from the JWT payload; both
tokens are signed with `expiresIn` "20h". Returns the new state and the
`(token, refreshToken)` pair put on the redirect URL. -/
def googleRedirect (db : AuthDB) (email : String) (gname : String)
    (picture : String) (placeholderHash : String) : AuthDB × Token × Token :=
  let (db1, uid) : AuthDB × Id :=
    match findUserByEmail db email with
    | some (uid, _) => (db, uid)
    | none =>
      ({ db with
          users := db.users ++
            [(db.nextId,
              { name := gname, email := email, password := placeholderHash,
                theme := "", avatarURL := picture })],
          nextId := db.nextId + 1 },
       db.nextId)
  let db2 := { db1 with sessions := db1.sessions ++ [(db1.nextId, uid)],
                        nextId := db1.nextId + 1 }
  (db2,
   { payloadId := some uid, payloadSid := none, expiresInHours := 20,
     wellSigned := true },
   { payloadId := some uid, payloadSid := none, expiresInHours := 20,
     wellSigned := true })

/-! ## Store lemmas -/

theorem findById_nil {α : Type} (i : Id) : findById ([] : Store α) i = none := rfl

theorem findById_cons {α : Type} (p : Id × α) (t : Store α) (i : Id) :
    findById (p :: t) i = if p.1 == i then some p.2 else findById t i := by
  by_cases h : p.1 == i <;> simp [findById, List.find?_cons, h]

theorem updateById_cons {α : Type} (p : Id × α) (t : Store α) (i : Id) (b : α) :
    updateById (p :: t) i b =
      (if p.1 == i then (p.1, b) else p) :: updateById t i b := rfl

theorem findByIdAndDelete_cons {α : Type} (p : Id × α) (t : Store α) (i : Id) :
    findByIdAndDelete (p :: t) i =
      if p.1 == i then findByIdAndDelete t i
      else p :: findByIdAndDelete t i := by
  show List.filter _ (p :: t) = _
  rw [List.filter_cons]
  cases hp : (p.1 == i) with
  | true =>
    have hne : (p.1 != i) = false := by simp [bne, hp]
    rw [hne, if_neg (by simp), if_pos rfl]
    rfl
  | false =>
    have hne : (p.1 != i) = true := by simp [bne, hp]
    rw [hne, if_pos rfl, if_neg (by simp)]
    rfl

theorem findById_updateById_self {α : Type} (s : Store α) (i : Id) (a b : α)
    (h : findById s i = some a) : findById (updateById s i b) i = some b := by
  induction s with
  | nil => simp [findById] at h
  | cons p t ih =>
    rw [findById_cons] at h
    rw [updateById_cons]
    cases hp : (p.1 == i) with
    | true =>
      rw [if_pos rfl, findById_cons]
      simp [hp]
    | false =>
      rw [if_neg (by simp), findById_cons, if_neg (by simp [hp])]
      rw [if_neg (by simp [hp])] at h
      exact ih h

theorem updateById_updateById {α : Type} (s : Store α) (i : Id) (a b : α) :
    updateById (updateById s i a) i b = updateById s i b := by
  induction s with
  | nil => rfl
  | cons p t ih =>
    rw [updateById_cons, updateById_cons, updateById_cons, ih]
    cases hp : (p.1 == i) with
    | true => simp [hp]
    | false => simp [hp]

theorem findById_findByIdAndDelete {α : Type} (s : Store α) (i : Id) :
    findById (findByIdAndDelete s i) i = none := by
  induction s with
  | nil => rfl
  | cons p t ih =>
    rw [findByIdAndDelete_cons]
    cases hp : (p.1 == i) with
    | true => rw [if_pos rfl]; exact ih
    | false =>
      rw [if_neg (by simp), findById_cons, if_neg (by simp [hp])]
      exact ih

theorem mem_findByIdAndDelete {α : Type} (s : Store α) (i : Id) (q : Id × α) :
    q ∈ findByIdAndDelete s i ↔ q ∈ s ∧ q.1 ≠ i := by
  simp [findByIdAndDelete, List.mem_filter, bne]

theorem findById_append_isSome {α : Type} (s : Store α) (i : Id) (a : α) :
    (findById (s ++ [(i, a)]) i).isSome = true := by
  induction s with
  | nil => simp [findById]
  | cons p t ih =>
    rw [List.cons_append, findById_cons]
    cases hp : (p.1 == i) with
    | true => rw [if_pos rfl]; rfl
    | false => rw [if_neg (by simp)]; exact ih

/-! ## Claim theorems -/

/-- Example fixtures: a board owned by user 7, its "Todo" column, a
priority-`high` card in that column, and a second board owned by user 8 on
which user 7 is only a collaborator. -/
def exBoard1 : Board :=
  { owner := 7, titleBoard := "Sprint 1", background := none, icon := none,
    collaborators := [] }

def exColumn2 : Column := { titleColumn := "Todo", boardId := 1, owner := 7 }

def exCard3 : Card :=
  { titleCard := "Fix bug", description := none, priority := .high,
    priorityColor := "red", deadline := none, columnId := 2, owner := 7,
    boardId := 1, collaborators := [] }

def exBoard4 : Board :=
  { owner := 8, titleBoard := "Other", background := none, icon := none,
    collaborators := [7] }

def exColumn5 : Column := { titleColumn := "Done", boardId := 4, owner := 8 }

def exDB : DB :=
  { boards := [(1, exBoard1)], columns := [(2, exColumn2)],
    cards := [(3, exCard3)], invitations := [], nextId := 10 }

def exDB2 : DB :=
  { boards := [(1, exBoard1), (4, exBoard4)],
    columns := [(2, exColumn2), (5, exColumn5)],
    cards := [(3, exCard3)], invitations := [], nextId := 10 }

/-- C1 fails on the code: in a state with board 1, a column 2 referencing it
and a card 3 referencing both, `deleteBoard 1` leaves the column and the card
(one of each still references board 1), and `deleteColumn 2` leaves the card
referencing column 2 — no cascade happens at all. -/
theorem C1_counterexample :
    ((deleteBoard exDB 1).1.columns.filter (fun p => p.2.boardId == 1)).length = 1 ∧
    ((deleteBoard exDB 1).1.cards.filter (fun p => p.2.boardId == 1)).length = 1 ∧
    ((deleteColumn exDB 2).1.cards.filter (fun p => p.2.columnId == 2)).length = 1 := by
  decide

/-- C1 amended: `deleteBoard` removes exactly the board record itself (the
board id no longer resolves) and answers 200, while the column, card and
invitation stores are left byte-for-byte unchanged — columns and cards
referencing the deleted board persist; likewise `deleteColumn` removes only
the column record and leaves every card (including those referencing the
deleted column) unchanged. -/
theorem C1_no_cascade (db : DB) (boardId : Id) (columnId : Id) :
    (findById (deleteBoard db boardId).1.boards boardId = none ∧
     (deleteBoard db boardId).1.columns = db.columns ∧
     (deleteBoard db boardId).1.cards = db.cards ∧
     (deleteBoard db boardId).1.invitations = db.invitations ∧
     (deleteBoard db boardId).2 = 200) ∧
    (findById (deleteColumn db columnId).1.columns columnId = none ∧
     (deleteColumn db columnId).1.cards = db.cards ∧
     (deleteColumn db columnId).1.boards = db.boards ∧
     (deleteColumn db columnId).2 = 200) := by
  refine ⟨⟨?_, rfl, rfl, rfl, rfl⟩, ⟨?_, rfl, rfl, rfl⟩⟩ <;>
    apply findById_findByIdAndDelete

/-- An empty database: no board, column, card or invitation at all. -/
def exDBempty : DB :=
  { boards := [], columns := [], cards := [], invitations := [], nextId := 0 }

/-- A Joi-valid but empty board patch. -/
def exEmptyPatch : BoardPatch :=
  { titleBoard := none, background := none, icon := none, collaborators := none }

/-- A Joi-valid card update body. -/
def exCardUpd : CardUpdatePayload :=
  { titleCard := "Fix bug", description := none, priority := none,
    priorityColor := "red", deadline := none, columnId := 2,
    collaborators := none }

/-- C9 fails on the code: against the empty database, `updateBoard`,
`updateColumn`, `updateCard` and `moveCard` with ids that resolve to nothing
all answer with HTTP 200 (body `null`), not with 404, because the routes send
the `findByIdAndUpdate` result unchecked. -/
theorem C9_counterexample :
    updateBoard exDBempty 1 exEmptyPatch = (exDBempty, 200, none) ∧
    updateColumn exDBempty 1 none = (exDBempty, 200, none) ∧
    updateCard exDBempty 1 exCardUpd = (exDBempty, 200, none) ∧
    moveCard exDBempty 1 2 = (exDBempty, 200, none) ∧
    (200 : Nat) ≠ 404 := by
  decide

/-- C9 amended: when a Joi-valid `updateBoard`, `updateColumn`, `updateCard`
or `moveCard` request names an id that resolves to no stored entity, the
operation answers 200 with a `null` body and leaves the state unchanged —
these four mutating routes never produce 404 for a missing entity. -/
theorem C9_missing_id_yields_200_null (db : DB) (bId colId cardId dest : Id)
    (p : BoardPatch) (tc : Option String) (cu : CardUpdatePayload)
    (hb : findById db.boards bId = none)
    (hc : findById db.columns colId = none)
    (hcard : findById db.cards cardId = none)
    (hvp : validateBoardPatch p = true)
    (hvt : (match tc with
            | none => true
            | some t => 1 ≤ t.length && t.length ≤ 150) = true)
    (hvc : validateCardUpdate cu = true) :
    updateBoard db bId p = (db, 200, none) ∧
    updateColumn db colId tc = (db, 200, none) ∧
    updateCard db cardId cu = (db, 200, none) ∧
    moveCard db cardId dest = (db, 200, none) := by
  refine ⟨?_, ?_, ?_, ?_⟩
  · simp [updateBoard, hvp, findByIdAndUpdate, hb]
  · simp [updateColumn, hvt, findByIdAndUpdate, hc]
  · simp [updateCard, hvc, findByIdAndUpdate, hcard]
  · simp [moveCard, findByIdAndUpdate, hcard]

/-- C9 witness: the amended statement holds at the empty database with the
concrete Joi-valid bodies. -/
theorem C9_witness :
    updateBoard exDBempty 3 exEmptyPatch = (exDBempty, 200, none) ∧
    updateColumn exDBempty 3 none = (exDBempty, 200, none) ∧
    updateCard exDBempty 3 exCardUpd = (exDBempty, 200, none) ∧
    moveCard exDBempty 3 9 = (exDBempty, 200, none) :=
  C9_missing_id_yields_200_null exDBempty 3 3 3 9 exEmptyPatch none exCardUpd
    rfl rfl rfl (by decide) rfl (by decide)

/-- C10 holds: `getUserBoards` returns exactly the stored boards whose
`owner` equals the requesting user's id, so a board that lists the user only
among its collaborators (with a different owner) never appears, even though
`getBoardData` would serve it by direct id. -/
theorem C10_listing_is_owned_boards (db : DB) (uid : Id) :
    (∀ q : Id × Board, q ∈ getUserBoards db uid ↔ q ∈ db.boards ∧ q.2.owner = uid) ∧
    (∀ q : Id × Board, q ∈ db.boards → uid ∈ q.2.collaborators →
      q.2.owner ≠ uid → q ∉ getUserBoards db uid) := by
  constructor
  · intro q
    simp [getUserBoards, List.mem_filter]
  · intro q hq hcol hown hmem
    rw [getUserBoards, List.mem_filter] at hmem
    exact hown (by simpa using hmem.2)

/-- C10 witness: in the two-board fixture, user 7 owns board 1 and is only a
collaborator on board 4 (owned by user 8); the listing for user 7 contains
board 1 and not board 4, and `getBoardData` still serves board 4 to user 7
by direct id. -/
theorem C10_witness :
    (1, exBoard1) ∈ getUserBoards exDB2 7 ∧
    (4, exBoard4) ∉ getUserBoards exDB2 7 ∧
    7 ∈ exBoard4.collaborators ∧
    (getBoardData exDB2 4 none).isOk = true := by
  refine ⟨?_, ?_, by decide, by decide⟩
  · exact ((C10_listing_is_owned_boards exDB2 7).1 (1, exBoard1)).2
      ⟨by simp [exDB2], rfl⟩
  · exact (C10_listing_is_owned_boards exDB2 7).2 (4, exBoard4)
      (by simp [exDB2]) (by decide) (by decide)

/-- C7 holds: for every stored card and every destination column id, the move
succeeds (200) and replaces exactly the card's `columnId`; title,
description, priority, priority color, deadline, owner, denormalized
`boardId` and collaborators are byte-for-byte unchanged, the board and
column stores are untouched, and no hypothesis about the destination is
needed — the route never looks the destination column up, so a cross-board
destination is accepted and leaves the stored `boardId` stale. -/
theorem C7_moveCard_frame (db : DB) (cardId dest : Id) (c : Card)
    (h : findById db.cards cardId = some c) :
    ∃ c2 : Card,
      moveCard db cardId dest =
        ({ db with cards := updateById db.cards cardId c2 }, 200, some c2) ∧
      c2.columnId = dest ∧
      c2.titleCard = c.titleCard ∧
      c2.description = c.description ∧
      c2.priority = c.priority ∧
      c2.priorityColor = c.priorityColor ∧
      c2.deadline = c.deadline ∧
      c2.owner = c.owner ∧
      c2.boardId = c.boardId ∧
      c2.collaborators = c.collaborators ∧
      (moveCard db cardId dest).1.boards = db.boards ∧
      (moveCard db cardId dest).1.columns = db.columns ∧
      findById (moveCard db cardId dest).1.cards cardId = some c2 := by
  refine ⟨{ c with columnId := dest }, ?_, rfl, rfl, rfl, rfl, rfl, rfl, rfl,
    rfl, rfl, ?_, ?_, ?_⟩
  · simp [moveCard, findByIdAndUpdate, h]
  · simp [moveCard, findByIdAndUpdate, h]
  · simp [moveCard, findByIdAndUpdate, h]
  · simp only [moveCard, findByIdAndUpdate, h]
    exact findById_updateById_self db.cards cardId c _ h

/-- C7 witness: card 3 lives in column 2 of board 1; moving it to column 5,
which belongs to board 4, succeeds and leaves the stored card's `boardId` at
1, stale relative to the destination column's board 4. -/
theorem C7_witness :
    findById exDB2.cards 3 = some exCard3 ∧
    ∃ c2 : Card,
      moveCard exDB2 3 5 =
        ({ exDB2 with cards := updateById exDB2.cards 3 c2 }, 200, some c2) ∧
      c2.columnId = 5 ∧
      c2.titleCard = exCard3.titleCard ∧
      c2.description = exCard3.description ∧
      c2.priority = exCard3.priority ∧
      c2.priorityColor = exCard3.priorityColor ∧
      c2.deadline = exCard3.deadline ∧
      c2.owner = exCard3.owner ∧
      c2.boardId = exCard3.boardId ∧
      c2.collaborators = exCard3.collaborators ∧
      (moveCard exDB2 3 5).1.boards = exDB2.boards ∧
      (moveCard exDB2 3 5).1.columns = exDB2.columns ∧
      findById (moveCard exDB2 3 5).1.cards 3 = some c2 :=
  ⟨rfl, C7_moveCard_frame exDB2 3 5 exCard3 rfl⟩

def mkColumnWithCards (fp : Option Priority) (cards : Store Card)
    (p : Id × Column) : ColumnWithCards :=
  { columnId := p.1
    column := p.2
    cards := cards.filter (fun q => cardFilterMatches fp p.1 q.2) }

theorem map_columnWithCards_proj (fp : Option Priority) (cards : Store Card)
    (l : Store Column) :
    (l.map (mkColumnWithCards fp cards)).map
      (fun cwc => (cwc.columnId, cwc.column)) = l := by
  induction l with
  | nil => rfl
  | cons p t ih =>
    simp only [List.map_cons]
    rw [ih]
    rfl

/-- C5 fails on the code: with board 1 and a priority-`high` card in its
column, the filter value `low` removes the card from the response even though
`high` is above `low` in the priority order — the supplied filter selects by
exact equality, not by at-or-above. The unfiltered request does return the
card. -/
theorem C5_counterexample :
    Priority.rank exCard3.priority ≥ Priority.rank Priority.low ∧
    (getBoardData exDB 1 (some Priority.low)).toOption =
      some { board := exBoard1,
             columns := [{ columnId := 2, column := exColumn2, cards := [] }] } ∧
    (getBoardData exDB 1 none).toOption =
      some { board := exBoard1,
             columns := [{ columnId := 2, column := exColumn2,
                           cards := [(3, exCard3)] }] } := by
  decide

/-- C5 amended: for every board that resolves, the response contains every
column of the board (never omitting an emptied one, in stored order), and a
column's card list retains exactly the stored cards of that column whose
priority EQUALS the supplied filter value — cards of any other priority,
above or below, are omitted; with no filter, all of the column's cards are
returned. -/
theorem C5_priority_filter_is_equality (db : DB) (boardId : Id) (board : Board)
    (fp : Option Priority) (h : findById db.boards boardId = some board) :
    ∃ bd : BoardData, getBoardData db boardId fp = .ok bd ∧
      bd.board = board ∧
      bd.columns.map (fun cwc => (cwc.columnId, cwc.column)) =
        db.columns.filter (fun p => p.2.boardId == boardId) ∧
      ∀ cwc ∈ bd.columns, ∀ q : Id × Card,
        (fp = none → (q ∈ cwc.cards ↔ q ∈ db.cards ∧ q.2.columnId = cwc.columnId)) ∧
        (∀ pr : Priority, fp = some pr →
          (q ∈ cwc.cards ↔ q ∈ db.cards ∧ q.2.columnId = cwc.columnId ∧
            q.2.priority = pr)) := by
  unfold getBoardData
  rw [h]
  refine ⟨_, rfl, rfl, map_columnWithCards_proj fp db.cards _, ?_⟩
  intro cwc hcwc q
  rw [List.mem_map] at hcwc
  obtain ⟨p, hp, rfl⟩ := hcwc
  constructor
  · rintro rfl
    simp [List.mem_filter, cardFilterMatches, and_comm]
  · rintro pr rfl
    simp [List.mem_filter, cardFilterMatches, and_assoc, and_comm]

/-- C5 witness: the amended statement instantiated at the concrete one-board
fixture with the filter `high`. -/
theorem C5_witness :
    findById exDB.boards 1 = some exBoard1 ∧
    ∃ bd : BoardData, getBoardData exDB 1 (some Priority.high) = .ok bd ∧
      bd.board = exBoard1 ∧
      bd.columns.map (fun cwc => (cwc.columnId, cwc.column)) =
        exDB.columns.filter (fun p => p.2.boardId == 1) ∧
      ∀ cwc ∈ bd.columns, ∀ q : Id × Card,
        ((some Priority.high : Option Priority) = none →
          (q ∈ cwc.cards ↔ q ∈ exDB.cards ∧ q.2.columnId = cwc.columnId)) ∧
        (∀ pr : Priority, (some Priority.high : Option Priority) = some pr →
          (q ∈ cwc.cards ↔ q ∈ exDB.cards ∧ q.2.columnId = cwc.columnId ∧
            q.2.priority = pr)) :=
  ⟨rfl, C5_priority_filter_is_equality exDB 1 exBoard1 (some Priority.high) rfl⟩

/-- A Joi-valid card creation body. -/
def exCardAddP : CardAddPayload :=
  { titleCard := "Write tests", description := none, priority := none,
    priorityColor := "blue", deadline := none }

/-- C6 fails on the code: column 2 and board 1 are owned by user 7, yet when
user 5 (an authenticated requester who is not the owner) creates a card under
column 2 the stored card's `owner` is 5, and when user 5 creates a column
under board 1 the stored column's `owner` is 5 — both routes write
`req.user.id`, not the parent's owner. -/
theorem C6_counterexample :
    (findById exDB.columns 2).map Column.owner = some 7 ∧
    (findById exDB.boards 1).map Board.owner = some 7 ∧
    ((addCard exDB 5 2 exCardAddP).2.2.map (fun q => q.2.owner)) = some 5 ∧
    ((addColumn exDB 5 1 "InProgress").2.2.map (fun q => q.2.owner)) = some 5 ∧
    (5 : Nat) ≠ 7 := by
  decide

/-- C6 amended: at card creation the stored card's `boardId` does equal the
parent column's `boardId` (that half of the denormalization invariant holds),
but the stored card's `owner` — and likewise a freshly created column's
`owner` — is the authenticated requester's id, which coincides with the
board's owner only when the requester is the owner. -/
theorem C6_owner_is_requester (db : DB) (uid colId : Id) (col : Column)
    (p : CardAddPayload) (hcol : findById db.columns colId = some col)
    (hval : validateCardAdd p = true) :
    (∃ cid : Id, ∃ c : Card, (addCard db uid colId p).2.2 = some (cid, c) ∧
      c.boardId = col.boardId ∧ c.columnId = colId ∧ c.owner = uid) ∧
    ∀ (bId : Id) (b : Board) (t : String), findById db.boards bId = some b →
      validateAddColumn t = true →
      ∃ cid2 : Id, ∃ c2 : Column, (addColumn db uid bId t).2.2 = some (cid2, c2) ∧
        c2.boardId = bId ∧ c2.owner = uid := by
  constructor
  · refine ⟨db.nextId,
      { titleCard := p.titleCard, description := p.description,
        priority := p.priority.getD .without, priorityColor := p.priorityColor,
        deadline := p.deadline, columnId := colId, owner := uid,
        boardId := col.boardId, collaborators := [] }, ?_, rfl, rfl, rfl⟩
    simp [addCard, hval, hcol]
  · intro bId b t hb hv
    refine ⟨db.nextId,
      { titleColumn := t, boardId := bId, owner := uid }, ?_, rfl, rfl⟩
    simp [addColumn, hv, hb]

/-- C6 witness: the amended statement instantiated for requester 9 on the
fixture owned by user 7. -/
theorem C6_witness :
    findById exDB.columns 2 = some exColumn2 ∧
    ((∃ cid : Id, ∃ c : Card, (addCard exDB 9 2 exCardAddP).2.2 = some (cid, c) ∧
        c.boardId = exColumn2.boardId ∧ c.columnId = 2 ∧ c.owner = 9) ∧
      ∀ (bId : Id) (b : Board) (t : String), findById exDB.boards bId = some b →
        validateAddColumn t = true →
        ∃ cid2 : Id, ∃ c2 : Column,
          (addColumn exDB 9 bId t).2.2 = some (cid2, c2) ∧
          c2.boardId = bId ∧ c2.owner = 9) :=
  ⟨rfl, C6_owner_is_requester exDB 9 2 exColumn2 exCardAddP rfl (by decide)⟩

/-- Board 1 with user 2 as collaborator, plus the accepted invitation 6 that
put user 2 there. -/
def exBoard1c : Board := { exBoard1 with collaborators := [2] }

def exInv6 : Invitation := { boardId := 1, userId := 2, status := .accepted }

def exDBinv : DB :=
  { boards := [(1, exBoard1c)], columns := [(2, exColumn2)],
    cards := [(3, exCard3)], invitations := [(6, exInv6)], nextId := 10 }

/-- C2 fails on the code: invitation 6 is already in the terminal state
`accepted` and user 2 is a collaborator of board 1, yet `declineInvitation`
answers 200 (not a rejection), flips the stored status to `declined`, and
removes user 2 from the board's collaborator set. -/
theorem C2_counterexample :
    findById exDBinv.invitations 6 = some exInv6 ∧
    exInv6.status = InvStatus.accepted ∧
    (findById exDBinv.boards 1).map Board.collaborators = some [2] ∧
    (declineInvitation exDBinv 6).2 = 200 ∧
    findById (declineInvitation exDBinv 6).1.invitations 6 =
      some { boardId := 1, userId := 2, status := .declined } ∧
    (findById (declineInvitation exDBinv 6).1.boards 1).map Board.collaborators =
      some [] := by
  decide

/-- Build an invitation with the same board/user but a new status
(the effect of the controller's `invitation.status = ...; save()`). -/
def Invitation.withStatus (inv : Invitation) (st : InvStatus) : Invitation :=
  { inv with status := st }

/-- Build a board with a replaced collaborator list (the effect of mutating
`board.collaborators` and saving). -/
def Board.withCollaborators (b : Board) (l : List Id) : Board :=
  { b with collaborators := l }

/-- A database with a replaced invitation store. -/
def DB.withInvitations (db : DB) (s : Store Invitation) : DB :=
  { db with invitations := s }

/-- A database with replaced invitation and board stores. -/
def DB.withInvitationsBoards (db : DB) (s : Store Invitation)
    (bs : Store Board) : DB :=
  { db with invitations := s, boards := bs }

/-- C2 amended: an invitation is created with status `pending`, but the
terminal states are not protected: `declineInvitation` on an invitation whose
status is already `accepted` succeeds with 200, overwrites the status to
`declined`, and removes the invitee from the board's collaborator set. -/
theorem C2_decline_overwrites_accepted (db : DB) (invId : Id) (inv : Invitation)
    (board : Board)
    (hinv : findById db.invitations invId = some inv)
    (_hacc : inv.status = InvStatus.accepted)
    (hboard : findById db.boards inv.boardId = some board) :
    (declineInvitation db invId).2 = 200 ∧
    findById (declineInvitation db invId).1.invitations invId =
      some (inv.withStatus .declined) ∧
    findById (declineInvitation db invId).1.boards inv.boardId =
      some (board.withCollaborators
        (board.collaborators.filter (fun c => !(c == inv.userId)))) ∧
    inv.userId ∉ board.collaborators.filter (fun c => !(c == inv.userId)) ∧
    (createInvitation db inv.boardId inv.userId).2.2 =
      some (db.nextId, { boardId := inv.boardId, userId := inv.userId,
                         status := .pending }) := by
  have e1 : declineInvitation db invId =
      (DB.withInvitationsBoards db
        (updateById db.invitations invId (inv.withStatus .declined))
        (updateById db.boards inv.boardId
          (board.withCollaborators
            (board.collaborators.filter (fun c => !(c == inv.userId))))),
       200) := by
    simp only [declineInvitation, hinv, hboard]
    rfl
  rw [e1]
  refine ⟨rfl, ?_, ?_, ?_, rfl⟩
  · exact findById_updateById_self db.invitations invId inv _ hinv
  · exact findById_updateById_self db.boards inv.boardId board _ hboard
  · simp [List.mem_filter]

/-- C2 witness: the amended statement instantiated at the accepted
invitation 6 of the fixture. -/
theorem C2_witness :
    (declineInvitation exDBinv 6).2 = 200 ∧
    findById (declineInvitation exDBinv 6).1.invitations 6 =
      some (exInv6.withStatus .declined) ∧
    findById (declineInvitation exDBinv 6).1.boards exInv6.boardId =
      some (exBoard1c.withCollaborators
        (exBoard1c.collaborators.filter (fun c => !(c == exInv6.userId)))) ∧
    exInv6.userId ∉ exBoard1c.collaborators.filter (fun c => !(c == exInv6.userId)) ∧
    (createInvitation exDBinv exInv6.boardId exInv6.userId).2.2 =
      some (exDBinv.nextId,
            { boardId := exInv6.boardId, userId := exInv6.userId,
              status := .pending }) :=
  C2_decline_overwrites_accepted exDBinv 6 exInv6 exBoard1c rfl rfl rfl

theorem contains_append_self (l : List Id) (u : Id) :
    (l ++ [u]).contains u = true := by
  induction l with
  | nil => simp [List.contains]
  | cons a t ih =>
    rw [List.cons_append]
    show (match u == a with
          | true => true
          | false => List.elem u (t ++ [u])) = true
    cases h : u == a with
    | true => rfl
    | false => exact ih

/-- Unfolding of `acceptInvitation` when invitation and board both resolve:
the invitation is saved as `accepted`, and the invitee is appended to the
board's collaborators exactly when `includes` does not already find it. -/
theorem acceptInvitation_eq (db : DB) (invId : Id) (inv : Invitation)
    (board : Board)
    (hinv : findById db.invitations invId = some inv)
    (hboard : findById db.boards inv.boardId = some board) :
    acceptInvitation db invId =
      (if board.collaborators.contains inv.userId then
        (DB.withInvitations db
          (updateById db.invitations invId (inv.withStatus .accepted)), 200)
      else
        (DB.withInvitationsBoards db
          (updateById db.invitations invId (inv.withStatus .accepted))
          (updateById db.boards inv.boardId
            (board.withCollaborators (board.collaborators ++ [inv.userId]))),
         200)) := by
  simp only [acceptInvitation, hinv, hboard]
  cases hc : board.collaborators.contains inv.userId with
  | true => rw [if_pos rfl]; rfl
  | false => rw [if_neg (by simp)]; rfl

/-- C3 holds: accepting the same invitation twice leaves exactly the state of
accepting it once (the second run is a complete no-op on the state and also
answers 200), and afterwards the invitee occurs exactly once in the board's
collaborator list, given the pre-state treats that list as a set (at most one
occurrence). -/
theorem C3_accept_is_idempotent (db : DB) (invId : Id) (inv : Invitation)
    (board : Board)
    (hinv : findById db.invitations invId = some inv)
    (hboard : findById db.boards inv.boardId = some board)
    (hset : board.collaborators.count inv.userId ≤ 1) :
    acceptInvitation (acceptInvitation db invId).1 invId =
      ((acceptInvitation db invId).1, 200) ∧
    ∃ b2 : Board,
      findById (acceptInvitation db invId).1.boards inv.boardId = some b2 ∧
      b2.collaborators.count inv.userId = 1 := by
  have e1 := acceptInvitation_eq db invId inv board hinv hboard
  cases hc : board.collaborators.contains inv.userId with
  | true =>
    rw [hc, if_pos rfl] at e1
    rw [e1]
    have hmem : inv.userId ∈ board.collaborators := List.elem_iff.mp hc
    constructor
    · have hX : findById (DB.withInvitations db
          (updateById db.invitations invId (inv.withStatus .accepted))).invitations
          invId = some (inv.withStatus .accepted) :=
        findById_updateById_self db.invitations invId inv _ hinv
      have e2 := acceptInvitation_eq
        (DB.withInvitations db
          (updateById db.invitations invId (inv.withStatus .accepted)))
        invId (inv.withStatus .accepted) board hX hboard
      rw [e2]
      have hc2 : board.collaborators.contains
          (inv.withStatus InvStatus.accepted).userId = true := hc
      rw [hc2, if_pos rfl]
      have hu : updateById (DB.withInvitations db
            (updateById db.invitations invId (inv.withStatus .accepted))).invitations
          invId ((inv.withStatus .accepted).withStatus .accepted) =
          updateById db.invitations invId (inv.withStatus .accepted) :=
        updateById_updateById db.invitations invId _ _
      rw [hu]
      rfl
    · refine ⟨board, hboard, ?_⟩
      have hpos : 0 < board.collaborators.count inv.userId :=
        List.count_pos_iff.mpr hmem
      omega
  | false =>
    rw [hc, if_neg (by simp)] at e1
    rw [e1]
    have hnotmem : inv.userId ∉ board.collaborators := by
      intro hmem
      rw [← List.elem_iff] at hmem
      rw [show board.collaborators.contains inv.userId =
            board.collaborators.elem inv.userId from rfl, hmem] at hc
      cases hc
    constructor
    · have hX : findById (DB.withInvitationsBoards db
          (updateById db.invitations invId (inv.withStatus .accepted))
          (updateById db.boards inv.boardId
            (board.withCollaborators (board.collaborators ++ [inv.userId])))).invitations
          invId = some (inv.withStatus .accepted) :=
        findById_updateById_self db.invitations invId inv _ hinv
      have hB : findById (DB.withInvitationsBoards db
          (updateById db.invitations invId (inv.withStatus .accepted))
          (updateById db.boards inv.boardId
            (board.withCollaborators (board.collaborators ++ [inv.userId])))).boards
          (inv.withStatus .accepted).boardId =
          some (board.withCollaborators (board.collaborators ++ [inv.userId])) :=
        findById_updateById_self db.boards inv.boardId board _ hboard
      have e2 := acceptInvitation_eq
        (DB.withInvitationsBoards db
          (updateById db.invitations invId (inv.withStatus .accepted))
          (updateById db.boards inv.boardId
            (board.withCollaborators (board.collaborators ++ [inv.userId]))))
        invId (inv.withStatus .accepted)
        (board.withCollaborators (board.collaborators ++ [inv.userId])) hX hB
      rw [e2]
      have hc3 : (board.withCollaborators
            (board.collaborators ++ [inv.userId])).collaborators.contains
          (inv.withStatus InvStatus.accepted).userId = true :=
        contains_append_self board.collaborators inv.userId
      rw [hc3, if_pos rfl]
      have hu : updateById (DB.withInvitationsBoards db
            (updateById db.invitations invId (inv.withStatus .accepted))
            (updateById db.boards inv.boardId
              (board.withCollaborators (board.collaborators ++ [inv.userId])))).invitations
          invId ((inv.withStatus .accepted).withStatus .accepted) =
          updateById db.invitations invId (inv.withStatus .accepted) :=
        updateById_updateById db.invitations invId _ _
      rw [hu]
      rfl
    · refine ⟨board.withCollaborators (board.collaborators ++ [inv.userId]),
        findById_updateById_self db.boards inv.boardId board _ hboard, ?_⟩
      show (board.collaborators ++ [inv.userId]).count inv.userId = 1
      rw [List.count_append, List.count_eq_zero.mpr hnotmem, List.count_singleton]
      simp

/-- C3 witness: accepting the already-accepted invitation 6 again changes
nothing, and user 2 occurs exactly once among board 1's collaborators. -/
theorem C3_witness :
    acceptInvitation (acceptInvitation exDBinv 6).1 6 =
      ((acceptInvitation exDBinv 6).1, 200) ∧
    ∃ b2 : Board,
      findById (acceptInvitation exDBinv 6).1.boards exInv6.boardId = some b2 ∧
      b2.collaborators.count exInv6.userId = 1 :=
  C3_accept_is_idempotent exDBinv 6 exInv6 exBoard1c rfl rfl (by decide)

/-- A session id that no longer resolves makes `authMiddleware` answer 401
for every token whose payload embeds it, whatever the rest of the token is. -/
theorem authCheck_dead_session (db : AuthDB) (sid : Id) (t : Token)
    (hdead : findById db.sessions sid = none) (ht : t.payloadSid = some sid) :
    authCheck db t = .error 401 := by
  cases hw : t.wellSigned with
  | false => simp [authCheck, hw]
  | true =>
    simp only [authCheck, hw, Bool.not_true]
    rw [if_neg (by simp)]
    cases hid : findByOptId db.users t.payloadId with
    | none => rfl
    | some user =>
      rw [ht]
      have h2 : findByOptId db.sessions (some sid) = none := hdead
      rw [h2]

/-- A session id that no longer resolves makes the refresh route answer 403
for every token whose payload embeds it. -/
theorem refresh_dead_session (db : AuthDB) (sid : Id) (t : Token)
    (hdead : findById db.sessions sid = none) (ht : t.payloadSid = some sid) :
    refreshTokens db t = .error 403 := by
  cases hw : t.wellSigned with
  | false => simp [refreshTokens, hw]
  | true =>
    simp only [refreshTokens, hw, Bool.not_true]
    rw [if_neg (by simp)]
    cases hid : findByOptId db.users t.payloadId with
    | none => rfl
    | some user =>
      rw [ht]
      have h2 : findByOptId db.sessions (some sid) = none := hdead
      rw [h2]

/-- The state right after `signIn` issues its tokens. -/
def postLogin (db : AuthDB) (uid : Id) : AuthDB :=
  AuthDB.mk db.users (db.sessions ++ [(db.nextId, uid)]) (db.nextId + 1)

theorem signIn_token_authCheck_ok (db : AuthDB) (uid : Id) (u : User) (v : Id)
    (h : Nat) (huser : findById db.users uid = some u)
    (hv : findById (db.sessions ++ [(db.nextId, uid)]) db.nextId = some v) :
    authCheck (postLogin db uid)
      (Token.mk (some uid) (some db.nextId) h true) = .ok (u, v) := by
  show (match findByOptId (postLogin db uid).users (some uid) with
        | none => Except.error 401
        | some user =>
          match findByOptId (postLogin db uid).sessions (some db.nextId) with
          | none => Except.error 401
          | some sessionUid => Except.ok (user, sessionUid)) = Except.ok (u, v)
  rw [show findByOptId (postLogin db uid).users (some uid) = some u from huser]
  rw [show findByOptId (postLogin db uid).sessions (some db.nextId) = some v
      from hv]

/-- C4 holds: a token pair freshly issued by login (for a user that resolves)
passes `authMiddleware` — the embedded session id resolves to the live
session just created — with the refresh token signed for 168 hours (7 days)
against the access token's 20 hours; and once `logOut` consumes the refresh
token (200, deleting the session), every token whose payload embeds that
session id — access or refresh, well signed or not — is rejected by
`authMiddleware` with 401 and by the refresh route with 403. -/
theorem C4_logout_revokes_session (db : AuthDB) (uid : Id) (u : User)
    (huser : findById db.users uid = some u) :
    (authCheck (signInIssue db uid).1 (signInIssue db uid).2.1).isOk = true ∧
    (authCheck (signInIssue db uid).1 (signInIssue db uid).2.2).isOk = true ∧
    (signInIssue db uid).2.1.expiresInHours = 20 ∧
    (signInIssue db uid).2.2.expiresInHours = 168 ∧
    (logOut (signInIssue db uid).1 (signInIssue db uid).2.2).2 = 200 ∧
    ∀ t : Token, t.payloadSid = some db.nextId →
      authCheck (logOut (signInIssue db uid).1 (signInIssue db uid).2.2).1 t =
        .error 401 ∧
      refreshTokens (logOut (signInIssue db uid).1 (signInIssue db uid).2.2).1 t =
        .error 403 := by
  obtain ⟨v, hv⟩ := Option.isSome_iff_exists.mp
    (findById_append_isSome db.sessions db.nextId uid)
  have hok20 : authCheck (signInIssue db uid).1 (signInIssue db uid).2.1 =
      Except.ok (u, v) :=
    signIn_token_authCheck_ok db uid u v 20 huser hv
  have hok168 : authCheck (signInIssue db uid).1 (signInIssue db uid).2.2 =
      Except.ok (u, v) :=
    signIn_token_authCheck_ok db uid u v 168 huser hv
  have hlogout : logOut (signInIssue db uid).1 (signInIssue db uid).2.2 =
      (AuthDB.mk db.users
        (findByIdAndDelete (db.sessions ++ [(db.nextId, uid)]) db.nextId)
        (db.nextId + 1), 200) := by
    show (match findById (postLogin db uid).sessions db.nextId with
          | none => (postLogin db uid, 403)
          | some _ =>
            (AuthDB.mk (postLogin db uid).users
              (findByIdAndDelete (postLogin db uid).sessions db.nextId)
              (postLogin db uid).nextId, 200)) = _
    rw [show findById (postLogin db uid).sessions db.nextId = some v from hv]
    rfl
  have hdead : findById (AuthDB.mk db.users
      (findByIdAndDelete (db.sessions ++ [(db.nextId, uid)]) db.nextId)
      (db.nextId + 1)).sessions db.nextId = none :=
    findById_findByIdAndDelete _ _
  refine ⟨by rw [hok20]; rfl, by rw [hok168]; rfl, rfl, rfl,
    by rw [hlogout], ?_⟩
  intro t ht
  rw [hlogout]
  exact ⟨authCheck_dead_session _ db.nextId t hdead ht,
    refresh_dead_session _ db.nextId t hdead ht⟩

/-- A user store with one registered account. -/
def exUserA : User :=
  { name := "A", email := "a@x.com", password := "hashA",
    theme := "light", avatarURL := "urlA" }

def exAuthDB : AuthDB := { users := [(1, exUserA)], sessions := [], nextId := 10 }

/-- C4 witness: the theorem instantiated at the one-user store. -/
theorem C4_witness :
    (authCheck (signInIssue exAuthDB 1).1 (signInIssue exAuthDB 1).2.1).isOk = true ∧
    (authCheck (signInIssue exAuthDB 1).1 (signInIssue exAuthDB 1).2.2).isOk = true ∧
    (signInIssue exAuthDB 1).2.1.expiresInHours = 20 ∧
    (signInIssue exAuthDB 1).2.2.expiresInHours = 168 ∧
    (logOut (signInIssue exAuthDB 1).1 (signInIssue exAuthDB 1).2.2).2 = 200 ∧
    ∀ t : Token, t.payloadSid = some exAuthDB.nextId →
      authCheck (logOut (signInIssue exAuthDB 1).1 (signInIssue exAuthDB 1).2.2).1 t =
        .error 401 ∧
      refreshTokens (logOut (signInIssue exAuthDB 1).1 (signInIssue exAuthDB 1).2.2).1 t =
        .error 403 :=
  C4_logout_revokes_session exAuthDB 1 exUserA rfl

/-- C8 fails as a code bug: on an OAuth login with the verified email of the
registered user, `googleRedirect` creates a live session (session id 10 is
stored) but signs both tokens from `{ id, sid: newSession.__id }`, and since
the document's id field is named `_id`, the signed `sid` is undefined — the
payload carries no session id at all, so the freshly issued access token is
rejected by `authMiddleware` with 401, unlike the `signIn`-issued one, which
passes; moreover the OAuth refresh token is signed with the same 20-hour
horizon as the access token instead of `signIn`'s 168-hour (7-day) refresh
horizon. -/
theorem C8_oauth_issuance_diverges_from_login :
    (googleRedirect exAuthDB "a@x.com" "A" "pic" "ph").2.1.payloadSid = none ∧
    (googleRedirect exAuthDB "a@x.com" "A" "pic" "ph").2.2.payloadSid = none ∧
    findById (googleRedirect exAuthDB "a@x.com" "A" "pic" "ph").1.sessions 10 =
      some 1 ∧
    authCheck (googleRedirect exAuthDB "a@x.com" "A" "pic" "ph").1
      (googleRedirect exAuthDB "a@x.com" "A" "pic" "ph").2.1 = .error 401 ∧
    (googleRedirect exAuthDB "a@x.com" "A" "pic" "ph").2.2.expiresInHours = 20 ∧
    (googleRedirect exAuthDB "a@x.com" "A" "pic" "ph").2.1.expiresInHours = 20 ∧
    (signInIssue exAuthDB 1).2.2.expiresInHours = 168 ∧
    (authCheck (signInIssue exAuthDB 1).1 (signInIssue exAuthDB 1).2.1).isOk =
      true :=
  ⟨rfl, rfl, rfl, rfl, rfl, rfl, rfl, rfl⟩

end TaskPro

